import Mathlib

/-!
Shallow embedding of the reviewable-media API data model and its
serializer validation rules (files `reviews/models.py` and
`api/serializers.py`), together with theorems settling the specified
properties of those definitions.

Modelling conventions:
* database rows become structures, collections of rows become lists;
* model fields whose definition allows SQL NULL become `Option`;
* serializer validation methods become functions into `Except String`,
  with Django's `ValidationError` as the `error` branch;
* the current calendar year, the request method, the authenticated user
  and the route keyword arguments are explicit parameters, matching the
  fact that the code reads them from ambient request context at
  validation time.
-/

namespace Yamdb

/-! ## Data model (`reviews/models.py`) -/

/-- Role string constants: `ADMIN = 'admin'`, etc. (models.py lines 13-15). -/
def ADMIN : String := "admin"

def MODERATOR : String := "moderator"

def USER : String := "user"

/-- Constant `SCORE_CHOICES` from models.py lines 8-11: the integer keys of the pairs. -/
def SCORE_CHOICES : List Int := [1, 2, 3, 4, 5, 6, 7, 8, 9, 10]

/-- Model `Category`: `name` and a unique `slug` (models.py lines 23-33). -/
structure Category where
  id : Nat
  name : String
  slug : String
deriving DecidableEq, Repr

/-- Model `Genre`: `name` and a unique `slug` (models.py lines 44-54). -/
structure Genre where
  id : Nat
  name : String
  slug : String
deriving DecidableEq, Repr

/-- Model `Title` (models.py lines 65-102).  `rating` is a stored nullable
positive-small-integer column; `category` is a nullable foreign key declared
with `on_delete=SET_NULL`; `genre` is a many-to-many link stored as the set
of genre ids. -/
structure Title where
  id : Nat
  name : String
  year : Nat
  description : Option String
  rating : Option Nat
  genre : List Nat
  category : Option Nat
deriving DecidableEq, Repr

/-- Model `User` (models.py lines 113-154): extends `AbstractUser`, which
contributes the `is_staff` and `is_superuser` boolean flags used by the
`is_admin` property.  `role` is a character field restricted by choices to
the three role strings, defaulting to `USER`. -/
structure User where
  id : Nat
  username : String
  email : String
  bio : Option String
  role : String
  first_name : String
  last_name : String
  confirmation_code : String
  is_staff : Bool
  is_superuser : Bool
deriving DecidableEq, Repr

/-- Property `User.is_admin` (models.py lines 167-170):
`self.role == ADMIN or self.is_staff or self.is_superuser`. -/
def User.is_admin (u : User) : Bool :=
  u.role == ADMIN || u.is_staff || u.is_superuser

/-- Property `User.is_moderator` (models.py lines 172-174). -/
def User.is_moderator (u : User) : Bool :=
  u.role == MODERATOR

/-- Model `Review` (models.py lines 180-213).  `title` and `author` are
foreign keys declared with `on_delete=CASCADE`; `score` is declared with
`null=True`, so the column admits SQL NULL and is embedded as `Option`.
`pub_date` is an auto-set creation timestamp, embedded as a number. -/
structure Review where
  id : Nat
  title : Nat
  text : String
  author : Nat
  score : Option Int
  pub_date : Nat
deriving DecidableEq, Repr

/-- Model `Comment` (models.py lines 230-253): `review` and `author` are
foreign keys declared with `on_delete=CASCADE`. -/
structure Comment where
  id : Nat
  review : Nat
  author : Nat
  text : String
  pub_date : Nat
deriving DecidableEq, Repr

/-! ## Score field declaration (models.py lines 199-208)

`score = models.PositiveSmallIntegerField(choices=SCORE_CHOICES, null=True,
validators=(MaxValueValidator(10), MinValueValidator(1)))`. -/

/-- Flag `null=True` on the `Review.score` column (models.py line 201): the
persistence layer accepts a review row whose score is NULL. -/
def scoreNullAllowed : Bool := true

/-- Validity of a stored score value under the `Review.score` column
declaration: a NULL score is allowed by `null=True`; a present value must
satisfy `MinValueValidator(1)` and `MaxValueValidator(10)`. -/
def scoreModelValid : Option Int → Bool
  | none => scoreNullAllowed
  | some v => decide (1 ≤ v) && decide (v ≤ 10)

/-! ## Persistence-layer unique constraint on Review (models.py lines 215-221)

`UniqueConstraint(fields=('title', 'author'), name='unique_review')`: the
database rejects an insert that would create a second row with the same
(title, author) pair. -/

/-- Insert of a review row as performed by the persistence engine under the
declared `unique_review` constraint: the insert commits only when no
existing row already carries the same (title, author) pair. -/
def dbInsertReview (reviews : List Review) (r : Review) : Except String (List Review) :=
  if reviews.any (fun x => x.title == r.title && x.author == r.author) then
    .error "unique_review"
  else
    .ok (r :: reviews)

/-! ## Serializers (`api/serializers.py`) -/

/-- Modelled from the spec: the configuration value `VALIDATE_NAME` is
imported from `api_yamdb.settings`, a file outside the given sources.  The
spec describes it as the reserved self-referential sentinel username
("me"-equivalent), so it is embedded as the lower-case string "me". -/
def VALIDATE_NAME : String := "me"

/-- Python's `str.lower()` on the character content of a string (the
usernames concerned are ASCII, where Python's and Lean's per-character
lower-casing agree). -/
def strLower (s : String) : String :=
  String.mk (s.data.map Char.toLower)

/-- Method `RegisterDataSerializer.validate_username` (serializers.py lines 52-57):
raises a `ValidationError` when `value.lower()` equals `VALIDATE_NAME`,
otherwise returns the value unchanged. -/
def validate_username (value : String) : Except String String :=
  if strLower value == VALIDATE_NAME then
    .error ("Username " ++ VALIDATE_NAME ++ " is not valid")
  else
    .ok value

/-- The username validators of `UserSerializer` (serializers.py lines
13-19): only a `UniqueValidator` over the existing users; the serializer
declares no `validate_username` method, so no reserved-name check runs. -/
def userSerializerUsernameValidation (existingUsernames : List String)
    (value : String) : Except String String :=
  if existingUsernames.contains value then
    .error "This field must be unique."
  else
    .ok value

/-- Method `TitleSerializer.validator_year` (serializers.py lines 92-97): raises a
`ValidationError` when the value exceeds `datetime.datetime.now().year`;
the current year, read at validation time, is an explicit parameter. -/
def validator_year (currentYear : Nat) (value : Nat) : Except String Nat :=
  if value > currentYear then
    .error "%(value)s is not a correcrt year!!!"
  else
    .ok value

/-- Modelled from the spec: `reviews/validators.validate_year`, referenced
as the field validator of `Title.year` (models.py line 74), lives in
`reviews/validators.py`, a file outside the given sources.  The spec states
the check "Rejects a year value greater than the current calendar year
(evaluated at validation time)". -/
def validate_year (currentYear : Nat) (value : Nat) : Except String Nat :=
  if value > currentYear then
    .error "year is in the future"
  else
    .ok value

/-- The `UniqueTogetherValidator(queryset=Title.objects.all(),
fields=('name', 'year'))` declared in `TitleSerializer.Meta.validators`
(serializers.py lines 107-112).  Per the framework's semantics the
validator filters the queryset for the submitted (name, year) pair and,
when the serializer is bound to an instance (an update), first excludes
that instance's own primary key; it raises a `ValidationError` when a
matching row exists.  It performs no write. -/
def uniqueTogetherNameYear (titles : List Title) (instanceId : Option Nat)
    (name : String) (year : Nat) : Except String Unit :=
  let qs := match instanceId with
    | none => titles
    | some i => titles.filter (fun t => t.id ≠ i)
  if qs.any (fun t => t.name == name && t.year == year) then
    .error "The fields name, year must make a unique set."
  else
    .ok ()

/-- Method `TitleReadSerializer.get_rating` (serializers.py lines 123-125):
`Review.objects.filter(title=obj.id).aggregate(Avg('score'))['score__avg']`.
The SQL `AVG` aggregate averages the non-NULL `score` values of the rows
matching the title and yields NULL when there is no such value.  The result
is a rational, as the average of integers. -/
def get_rating (reviews : List Review) (obj : Title) : Option ℚ :=
  let scores : List Int := (reviews.filter (fun r => r.title == obj.id)).filterMap (fun r => r.score)
  match scores with
  | [] => none
  | _ => some ((scores.map (Int.cast : Int → ℚ)).sum / scores.length)

/-- Method `ReviewSerializer.validate_score` (serializers.py lines 154-157):
raises a `ValidationError` when `value < 1 or value > 10`. -/
def validate_score (value : Int) : Except String Int :=
  if value < 1 || value > 10 then
    .error "Недопустимое значение!"
  else
    .ok value

/-- Method `ReviewSerializer.validate` (serializers.py lines 141-152).  For a
non-POST request the data is returned unchanged.  For POST, the title id is
read from the route keyword arguments and the acting user from the request
context; `get_object_or_404` fails with a not-found error when either
lookup misses; and if a review with the same (title, author) pair already
exists, a `ValidationError` is raised. -/
def reviewValidate (method : String) (users : List User) (titles : List Title)
    (reviews : List Review) (contextUsername : String) (routeTitleId : Nat) :
    Except String Unit :=
  if method ≠ "POST" then
    .ok ()
  else
    match (users.filter (fun u => u.username == contextUsername)).head? with
    | none => .error "404: user not found"
    | some author =>
      match (titles.filter (fun t => t.id == routeTitleId)).head? with
      | none => .error "404: title not found"
      | some title =>
        if reviews.any (fun r => r.title == title.id && r.author == author.id) then
          .error "Можно написать только одно ревью."
        else
          .ok ()

/-! ## Review deserialization (serializers.py lines 133-139)

`ReviewSerializer` declares `author = SlugRelatedField(slug_field='username',
read_only=True)` and `title = serializers.PrimaryKeyRelatedField(read_only=True)`;
`id` is the primary key and `pub_date` is `auto_now_add`, both read-only.
Read-only fields are excluded from deserialization, so of the declared
fields `('id', 'text', 'author', 'pub_date', 'title', 'score')` only `text`
and `score` are taken from the request body. -/

/-- A client-supplied request body for a review write: every declared field
may be present, including attempts to set the read-only ones. -/
structure ReviewPayload where
  text : String
  score : Option Int
  author : Option String
  title : Option Nat
  pub_date : Option Nat
  id : Option Nat
deriving DecidableEq, Repr

/-- The deserialized (validated) data of a review write: only the writable
fields survive. -/
structure ReviewValidatedData where
  text : String
  score : Option Int
deriving DecidableEq, Repr

/-- Deserialization by `ReviewSerializer`: reads only the writable fields
`text` and `score` from the body; `author`, `title`, `pub_date` and `id`
are read-only and ignored. -/
def reviewToInternalValue (p : ReviewPayload) : ReviewValidatedData :=
  { text := p.text, score := p.score }

/-- Modelled from the spec: the view's creation step (the views module is
outside the given sources).  The spec states "the author is always taken
from the authenticated identity of the request" and the target Title is
"identified by an identifier carried in the request's routing context", so
the saved row combines the deserialized data with the context user's id and
the route-derived title id. -/
def reviewPerformCreate (contextUserId : Nat) (routeTitleId : Nat)
    (d : ReviewValidatedData) (newId : Nat) (now : Nat) : Review :=
  { id := newId, title := routeTitleId, author := contextUserId,
    text := d.text, score := d.score, pub_date := now }

/-! ## Deletion semantics (models.py foreign-key declarations)

`Title.category` is declared `on_delete=SET_NULL` (models.py lines 97-99);
`Review.title`, `Review.author`, `Comment.review` and `Comment.author` are
declared `on_delete=CASCADE` (models.py lines 180-198 and 230-244).  The
persistence engine applies these rules transitively on delete. -/

/-- A database state: one list of rows per entity. -/
structure DB where
  categories : List Category
  genres : List Genre
  titles : List Title
  users : List User
  reviews : List Review
  comments : List Comment
deriving Repr

/-- Deleting a Category: the row disappears and, by `on_delete=SET_NULL` on
`Title.category`, every title referencing it gets a NULL category; no title
is deleted. -/
def deleteCategory (db : DB) (cid : Nat) : DB :=
  { db with
    categories := db.categories.filter (fun c => c.id ≠ cid),
    titles := db.titles.map (fun t =>
      if t.category = some cid then { t with category := none } else t) }

/-- Deleting a Title: the row disappears; by `on_delete=CASCADE` on
`Review.title` its reviews are deleted, and transitively, by
`on_delete=CASCADE` on `Comment.review`, the comments of those reviews. -/
def deleteTitle (db : DB) (tid : Nat) : DB :=
  let deadReviewIds := (db.reviews.filter (fun r => r.title == tid)).map (fun r => r.id)
  { db with
    titles := db.titles.filter (fun t => t.id ≠ tid),
    reviews := db.reviews.filter (fun r => r.title ≠ tid),
    comments := db.comments.filter (fun c => ¬ deadReviewIds.contains c.review) }

/-- Deleting a Review: the row disappears and, by `on_delete=CASCADE` on
`Comment.review`, its comments are deleted. -/
def deleteReview (db : DB) (rid : Nat) : DB :=
  { db with
    reviews := db.reviews.filter (fun r => r.id ≠ rid),
    comments := db.comments.filter (fun c => c.review ≠ rid) }

/-- Deleting a User: the row disappears; by `on_delete=CASCADE` on
`Review.author` and `Comment.author` the user's reviews and comments are
deleted, and transitively the comments on the user's reviews. -/
def deleteUser (db : DB) (uid : Nat) : DB :=
  let deadReviewIds := (db.reviews.filter (fun r => r.author == uid)).map (fun r => r.id)
  { db with
    users := db.users.filter (fun u => u.id ≠ uid),
    reviews := db.reviews.filter (fun r => r.author ≠ uid),
    comments := db.comments.filter (fun c =>
      c.author ≠ uid ∧ ¬ deadReviewIds.contains c.review) }

/-! ## Theorems -/

/-- C10: for every User, `is_admin` holds iff the role equals `'admin'` or
the staff flag or the superuser flag is set; consequently a user whose role
is `'user'` or `'moderator'` is still treated as admin whenever either flag
is set. -/
theorem c10_is_admin_iff :
    (∀ u : User, u.is_admin = true ↔
      (u.role = ADMIN ∨ u.is_staff = true ∨ u.is_superuser = true))
    ∧ (∀ u : User, (u.role = USER ∨ u.role = MODERATOR) →
      (u.is_staff = true ∨ u.is_superuser = true) → u.is_admin = true) := by
  constructor
  · intro u
    simp [User.is_admin, or_assoc]
  · intro u _ h
    rcases h with h | h <;> simp [User.is_admin, h]

/-- Witness for C10: a concrete user with role `'user'` and the staff flag
set is admin. -/
theorem c10_is_admin_iff_witness :
    ({ id := 1, username := "u1", email := "u1@x", bio := none, role := "user",
       first_name := "", last_name := "", confirmation_code := "",
       is_staff := true, is_superuser := false } : User).is_admin = true :=
  c10_is_admin_iff.2 _ (Or.inl rfl) (Or.inl rfl)

/-- C5: a registration username whose lower-cased value equals the reserved
sentinel is rejected with a ValidationError, while a username that does not
equal the sentinel after lower-casing passes; in particular "me" and "ME"
are rejected and "me_too" passes. -/
theorem c5_reserved_username :
    (∀ v : String, strLower v = VALIDATE_NAME →
      validate_username v = .error ("Username " ++ VALIDATE_NAME ++ " is not valid"))
    ∧ (∀ v : String, strLower v ≠ VALIDATE_NAME → validate_username v = .ok v)
    ∧ validate_username "me" = .error "Username me is not valid"
    ∧ validate_username "ME" = .error "Username me is not valid"
    ∧ validate_username "me_too" = .ok "me_too" := by
  refine ⟨?_, ?_, rfl, rfl, rfl⟩
  · intro v h
    simp [validate_username, h]
  · intro v h
    simp [validate_username, h]

/-- Witness for C5: applying the general clauses at the concrete usernames
"Me" (rejected) and "me_too" (accepted). -/
theorem c5_reserved_username_witness :
    validate_username "Me" = .error "Username me is not valid"
    ∧ validate_username "me_too" = .ok "me_too" :=
  ⟨c5_reserved_username.1 "Me" (by decide), c5_reserved_username.2.1 "me_too" (by decide)⟩

/-- C9: the reserved-sentinel check exists only on the registration
serializer: the full user representation's username validation never emits
the reserved-name error for a sentinel-valued username — with the username
not already taken it validates successfully — while the registration
serializer rejects the same value. -/
theorem c9_user_serializer_no_reserved_check :
    (∀ (existing : List String) (v : String), strLower v = VALIDATE_NAME →
      v ∉ existing → userSerializerUsernameValidation existing v = .ok v)
    ∧ (∀ v : String, strLower v = VALIDATE_NAME →
      validate_username v = .error ("Username " ++ VALIDATE_NAME ++ " is not valid")) := by
  constructor
  · intro existing v _ hv
    have hc : existing.contains v = false := by simpa using hv
    simp [userSerializerUsernameValidation, hc]
    exact hv
  · intro v h
    simp [validate_username, h]

/-- Witness for C9: the sentinel "me", not among the existing usernames, is
accepted by the full user representation and rejected at registration. -/
theorem c9_user_serializer_no_reserved_check_witness :
    userSerializerUsernameValidation ["alice"] "me" = .ok "me"
    ∧ validate_username "me" = .error "Username me is not valid" :=
  ⟨c9_user_serializer_no_reserved_check.1 ["alice"] "me" (by decide) (by decide),
   c9_user_serializer_no_reserved_check.2 "me" (by decide)⟩

/-- C3 counterexample: the claim says an absent/null score on creation is
rejected, but `Review.score` is declared with `null=True` (models.py line
201), so a NULL score satisfies the column declaration and a review row
with NULL score inserts successfully. -/
theorem c3_null_score_accepted :
    scoreModelValid none = true
    ∧ dbInsertReview [] (⟨1, 1, "txt", 1, none, 0⟩ : Review)
      = .ok [(⟨1, 1, "txt", 1, none, 0⟩ : Review)] :=
  ⟨rfl, rfl⟩

/-- C3 amended: a score value that is provided must be an integer in
[1, 10] — `validate_score` accepts exactly the integers 1..10, rejects 0,
11 and -1 — but a null score is permitted by the model column
(`null=True`), so an absent/null score on creation is not rejected. -/
theorem c3_score_range :
    (∀ v : Int, validate_score v = .ok v ↔ (1 ≤ v ∧ v ≤ 10))
    ∧ (∀ v : Int, (v < 1 ∨ 10 < v) → validate_score v = .error "Недопустимое значение!")
    ∧ validate_score 0 = .error "Недопустимое значение!"
    ∧ validate_score 11 = .error "Недопустимое значение!"
    ∧ validate_score (-1) = .error "Недопустимое значение!"
    ∧ (∀ v : Int, v ∈ SCORE_CHOICES → validate_score v = .ok v)
    ∧ scoreModelValid none = true := by
  refine ⟨?_, ?_, rfl, rfl, rfl, ?_, rfl⟩
  · intro v
    constructor
    · intro h
      by_contra hc
      simp only [validate_score] at h
      rcases (by omega : v < 1 ∨ 10 < v) with hv | hv <;> simp [hv] at h
    · intro ⟨h1, h2⟩
      simp [validate_score, not_lt.mpr h1, not_lt.mpr h2]
  · intro v hv
    rcases hv with hv | hv <;> simp [validate_score, hv]
  · intro v hv
    fin_cases hv <;> rfl

/-- Witness for C3: the in-range score 7 is accepted by `validate_score`. -/
theorem c3_score_range_witness : validate_score 7 = .ok 7 :=
  (c3_score_range.1 7).mpr (by norm_num)

/-- C1: the read representation's rating is re-derived from the Review
collection on every read — it does not depend on the Title's stored
`rating` column — and equals the arithmetic mean of the scores of the
reviews referencing the title (the returned value times the number of
scores equals their sum), is null when the title has no reviews, and on
the concrete collections scored [8, 10] and [1, 2, 3] equals exactly 9
and 2. -/
theorem c1_rating_average :
    (∀ (reviews : List Review) (t : Title),
      reviews.filter (fun r => r.title == t.id) = [] → get_rating reviews t = none)
    ∧ (∀ (reviews : List Review) (t : Title) (q : ℚ),
      get_rating reviews t = some q →
      q * ((reviews.filter (fun r => r.title == t.id)).filterMap (fun r => r.score)).length
        = (((reviews.filter (fun r => r.title == t.id)).filterMap (fun r => r.score)).map
            (Int.cast : Int → ℚ)).sum)
    ∧ (∀ (reviews : List Review) (t : Title) (stored : Option Nat),
      get_rating reviews { t with rating := stored } = get_rating reviews t)
    ∧ get_rating [⟨1, 5, "a", 2, some 8, 0⟩, ⟨2, 5, "b", 3, some 10, 0⟩]
        (⟨5, "T", 2000, none, none, [], none⟩ : Title) = some 9
    ∧ get_rating [⟨1, 5, "a", 2, some 1, 0⟩, ⟨2, 5, "b", 3, some 2, 0⟩,
        ⟨3, 5, "c", 4, some 3, 0⟩]
        (⟨5, "T", 2000, none, none, [], none⟩ : Title) = some 2
    ∧ get_rating [] (⟨5, "T", 2000, none, none, [], none⟩ : Title) = none := by
  refine ⟨?_, ?_, fun _ _ _ => rfl, ?_, ?_, rfl⟩
  · intro reviews t h
    simp [get_rating, h]
  · intro reviews t q h
    simp only [get_rating] at h
    cases hsc : (reviews.filter (fun r => r.title == t.id)).filterMap (fun r => r.score) with
    | nil => rw [hsc] at h; simp at h
    | cons a l =>
      rw [hsc] at h
      simp only [Option.some.injEq] at h
      rw [← h]
      rw [div_mul_cancel₀]
      intro hzero
      have hlen : (a :: l).length = 0 := by exact_mod_cast hzero
      simp at hlen
  · norm_num [get_rating, List.filterMap_cons, List.filter_cons]
  · norm_num [get_rating, List.filterMap_cons, List.filter_cons]

/-- Witness for C1: applying the empty-collection clause and the mean
clause at concrete inputs — with no review the rating is null, and for a
single review scored 4 the returned rating times the score count equals
the score sum. -/
theorem c1_rating_average_witness :
    get_rating [] (⟨7, "W", 1999, none, some 3, [], none⟩ : Title) = none
    ∧ (6 : ℚ) * (([(⟨1, 7, "a", 2, some 6, 0⟩ : Review)].filter
        (fun r => r.title == (⟨7, "W", 1999, none, none, [], none⟩ : Title).id)).filterMap
        (fun r => r.score)).length
      = ((([(⟨1, 7, "a", 2, some 6, 0⟩ : Review)].filter
        (fun r => r.title == (⟨7, "W", 1999, none, none, [], none⟩ : Title).id)).filterMap
        (fun r => r.score)).map (Int.cast : Int → ℚ)).sum :=
  ⟨c1_rating_average.1 [] _ rfl,
   c1_rating_average.2.1 [⟨1, 7, "a", 2, some 6, 0⟩] ⟨7, "W", 1999, none, none, [], none⟩ 6
     (by norm_num [get_rating, List.filterMap_cons, List.filter_cons])⟩

/-- C2: creating a second Review for the same (author, title) pair through
a POST request is rejected with the duplicate-review validation error; a
non-POST (update) request skips the duplicate check and validates; a POST
with no existing review for the pair validates; and the persistence-layer
`unique_review` constraint rejects an insert of a row whose (title, author)
pair is already present. -/
theorem c2_one_review_per_pair :
    (∀ (users : List User) (titles : List Title) (reviews : List Review)
       (ctxUser : String) (tid : Nat) (author : User) (title : Title),
      (users.filter (fun u => u.username == ctxUser)).head? = some author →
      (titles.filter (fun t => t.id == tid)).head? = some title →
      (∃ r ∈ reviews, r.title = title.id ∧ r.author = author.id) →
      reviewValidate "POST" users titles reviews ctxUser tid
        = .error "Можно написать только одно ревью.")
    ∧ (∀ (method : String) (users : List User) (titles : List Title)
       (reviews : List Review) (ctxUser : String) (tid : Nat),
      method ≠ "POST" →
      reviewValidate method users titles reviews ctxUser tid = .ok ())
    ∧ (∀ (users : List User) (titles : List Title) (reviews : List Review)
       (ctxUser : String) (tid : Nat) (author : User) (title : Title),
      (users.filter (fun u => u.username == ctxUser)).head? = some author →
      (titles.filter (fun t => t.id == tid)).head? = some title →
      (∀ r ∈ reviews, ¬(r.title = title.id ∧ r.author = author.id)) →
      reviewValidate "POST" users titles reviews ctxUser tid = .ok ())
    ∧ (∀ (reviews : List Review) (r : Review),
      (∃ x ∈ reviews, x.title = r.title ∧ x.author = r.author) →
      dbInsertReview reviews r = .error "unique_review") := by
  refine ⟨?_, ?_, ?_, ?_⟩
  · intro users titles reviews ctxUser tid author title h1 h2 h3
    have hany : reviews.any (fun r => r.title == title.id && r.author == author.id) = true := by
      rcases h3 with ⟨r, hr, hrt, hra⟩
      exact List.any_eq_true.mpr ⟨r, hr, by simp [hrt, hra]⟩
    simp [reviewValidate, h1, h2, hany]
  · intro method users titles reviews ctxUser tid h
    simp [reviewValidate, h]
  · intro users titles reviews ctxUser tid author title h1 h2 h3
    have hany : reviews.any (fun r => r.title == title.id && r.author == author.id) = false := by
      rw [List.any_eq_false]
      intro r hr
      have := h3 r hr
      simp only [Bool.and_eq_true, beq_iff_eq]
      tauto
    simp [reviewValidate, h1, h2, hany]
  · intro reviews r h
    have hany : reviews.any (fun x => x.title == r.title && x.author == r.author) = true := by
      rcases h with ⟨x, hx, hxt, hxa⟩
      exact List.any_eq_true.mpr ⟨x, hx, by simp [hxt, hxa]⟩
    simp [dbInsertReview, hany]

/-- Witness for C2: with one user, one title and one existing review by
that user for that title, a POST re-submission fails with the
duplicate-review error, a PATCH validates, and the database insert of a
second row with the same pair is rejected by the unique constraint. -/
theorem c2_one_review_per_pair_witness :
    reviewValidate "POST" [⟨2, "ann", "a@x", none, "user", "", "", "", false, false⟩]
        [⟨5, "T", 2000, none, none, [], none⟩] [⟨1, 5, "good", 2, some 8, 0⟩] "ann" 5
      = .error "Можно написать только одно ревью."
    ∧ reviewValidate "PATCH" [⟨2, "ann", "a@x", none, "user", "", "", "", false, false⟩]
        [⟨5, "T", 2000, none, none, [], none⟩] [⟨1, 5, "good", 2, some 8, 0⟩] "ann" 5
      = .ok ()
    ∧ dbInsertReview [⟨1, 5, "good", 2, some 8, 0⟩] ⟨9, 5, "again", 2, some 3, 0⟩
      = .error "unique_review" :=
  ⟨c2_one_review_per_pair.1 _ _ _ "ann" 5 ⟨2, "ann", "a@x", none, "user", "", "", "", false, false⟩
      ⟨5, "T", 2000, none, none, [], none⟩ rfl rfl
      ⟨⟨1, 5, "good", 2, some 8, 0⟩, by simp, rfl, rfl⟩,
   c2_one_review_per_pair.2.1 "PATCH" _ _ _ "ann" 5 (by simp),
   c2_one_review_per_pair.2.2.2 _ ⟨9, 5, "again", 2, some 3, 0⟩
      ⟨⟨1, 5, "good", 2, some 8, 0⟩, by simp, rfl, rfl⟩⟩

/-- C4: a year value strictly greater than the current calendar year
(passed in at validation time) is rejected with a validation error, and
every year less than or equal to the current year passes the year check;
this holds both for the model-field validator `validate_year` and for the
serializer method `validator_year`. -/
theorem c4_year_not_in_future :
    (∀ currentYear value : Nat, value > currentYear →
      validate_year currentYear value = .error "year is in the future")
    ∧ (∀ currentYear value : Nat, value ≤ currentYear →
      validate_year currentYear value = .ok value)
    ∧ (∀ currentYear value : Nat, value > currentYear →
      validator_year currentYear value = .error "%(value)s is not a correcrt year!!!")
    ∧ (∀ currentYear value : Nat, value ≤ currentYear →
      validator_year currentYear value = .ok value) := by
  refine ⟨?_, ?_, ?_, ?_⟩ <;> intro cy v h
  · simp [validate_year, h]
  · simp [validate_year, Nat.not_lt.mpr h]
  · simp [validator_year, h]
  · simp [validator_year, Nat.not_lt.mpr h]

/-- Witness for C4: with the current year 2024, the year 2025 is rejected
and the year 2020 passes, under both validators. -/
theorem c4_year_not_in_future_witness :
    validate_year 2024 2025 = .error "year is in the future"
    ∧ validate_year 2024 2020 = .ok 2020
    ∧ validator_year 2024 2025 = .error "%(value)s is not a correcrt year!!!"
    ∧ validator_year 2024 2020 = .ok 2020 :=
  ⟨c4_year_not_in_future.1 2024 2025 (by omega),
   c4_year_not_in_future.2.1 2024 2020 (by omega),
   c4_year_not_in_future.2.2.1 2024 2025 (by omega),
   c4_year_not_in_future.2.2.2 2024 2020 (by omega)⟩

/-- C6 counterexample: updating the existing Title with id 1 and pair
("X", 2000) to the same ("X", 2000) passes the unique-together validator
even though that pair is in use by an existing Title (the instance
itself), because the validator excludes the bound instance from the
queryset; so the claim, read over updates, fails at this input. -/
theorem c6_self_update_accepted :
    uniqueTogetherNameYear [(⟨1, "X", 2000, none, none, [], none⟩ : Title)]
        (some 1) "X" 2000 = .ok ()
    ∧ (⟨1, "X", 2000, none, none, [], none⟩ : Title)
        ∈ [(⟨1, "X", 2000, none, none, [], none⟩ : Title)]
    ∧ (⟨1, "X", 2000, none, none, [], none⟩ : Title).name = "X"
    ∧ (⟨1, "X", 2000, none, none, [], none⟩ : Title).year = 2000 :=
  ⟨rfl, List.mem_singleton.mpr rfl, rfl, rfl⟩

/-- C6 amended: a create with a (name, year) pair already in use by an
existing Title is rejected with the uniqueness validation error, and an
update is rejected when the pair is in use by a *different* existing Title
(the validator excludes the updated instance itself); when no such title
exists the check passes.  The validator performs no write, so rejection
precedes any persistence. -/
theorem c6_name_year_unique :
    (∀ (titles : List Title) (name : String) (year : Nat),
      (∃ t ∈ titles, t.name = name ∧ t.year = year) →
      uniqueTogetherNameYear titles none name year
        = .error "The fields name, year must make a unique set.")
    ∧ (∀ (titles : List Title) (iid : Nat) (name : String) (year : Nat),
      (∃ t ∈ titles, t.id ≠ iid ∧ t.name = name ∧ t.year = year) →
      uniqueTogetherNameYear titles (some iid) name year
        = .error "The fields name, year must make a unique set.")
    ∧ (∀ (titles : List Title) (name : String) (year : Nat),
      (∀ t ∈ titles, ¬(t.name = name ∧ t.year = year)) →
      uniqueTogetherNameYear titles none name year = .ok ()) := by
  refine ⟨?_, ?_, ?_⟩
  · intro titles name year h
    have hany : titles.any (fun t => t.name == name && t.year == year) = true := by
      rcases h with ⟨t, ht, hn, hy⟩
      exact List.any_eq_true.mpr ⟨t, ht, by simp [hn, hy]⟩
    simp [uniqueTogetherNameYear, hany]
  · intro titles iid name year h
    have hany : (titles.filter (fun t => t.id ≠ iid)).any
        (fun t => t.name == name && t.year == year) = true := by
      rcases h with ⟨t, ht, hi, hn, hy⟩
      exact List.any_eq_true.mpr ⟨t, List.mem_filter.mpr ⟨ht, by simp [hi]⟩, by simp [hn, hy]⟩
    simp [uniqueTogetherNameYear, hany]
    exact h
  · intro titles name year h
    have hany : titles.any (fun t => t.name == name && t.year == year) = false := by
      rw [List.any_eq_false]
      intro t ht
      have := h t ht
      simp only [Bool.and_eq_true, beq_iff_eq]
      tauto
    simp [uniqueTogetherNameYear, hany]

/-- Witness for C6: creating a Title with the pair ("X", 2000) already
carried by the existing title with id 1 is rejected; an update of the
title with id 2 to that pair is also rejected, the clash being with the
different title id 1. -/
theorem c6_name_year_unique_witness :
    uniqueTogetherNameYear [(⟨1, "X", 2000, none, none, [], none⟩ : Title)] none "X" 2000
      = .error "The fields name, year must make a unique set."
    ∧ uniqueTogetherNameYear [(⟨1, "X", 2000, none, none, [], none⟩ : Title)] (some 2) "X" 2000
      = .error "The fields name, year must make a unique set." :=
  ⟨c6_name_year_unique.1 _ "X" 2000
      ⟨⟨1, "X", 2000, none, none, [], none⟩, by simp, rfl, rfl⟩,
   c6_name_year_unique.2.1 _ 2 "X" 2000
      ⟨⟨1, "X", 2000, none, none, [], none⟩, by simp, by decide, rfl, rfl⟩⟩

/-- C7: deleting a Category referenced by a Title sets the title's category
reference to null without deleting the title (titles survive with at most
their category field cleared); deleting a Title deletes every Review
referencing it; deleting a Review deletes every Comment referencing it;
and deleting a User deletes that user's Reviews and Comments. -/
theorem c7_delete_semantics :
    (∀ (db : DB) (cid : Nat),
      (deleteCategory db cid).titles.length = db.titles.length
      ∧ (∀ t ∈ (deleteCategory db cid).titles, t.category ≠ some cid)
      ∧ (∀ t ∈ db.titles,
          (if t.category = some cid then { t with category := none } else t)
            ∈ (deleteCategory db cid).titles))
    ∧ (∀ (db : DB) (tid : Nat), ∀ r ∈ (deleteTitle db tid).reviews, r.title ≠ tid)
    ∧ (∀ (db : DB) (rid : Nat), ∀ c ∈ (deleteReview db rid).comments, c.review ≠ rid)
    ∧ (∀ (db : DB) (uid : Nat),
        (∀ r ∈ (deleteUser db uid).reviews, r.author ≠ uid)
        ∧ (∀ c ∈ (deleteUser db uid).comments, c.author ≠ uid)) := by
  refine ⟨?_, ?_, ?_, ?_⟩
  · intro db cid
    refine ⟨by simp [deleteCategory], ?_, ?_⟩
    · intro t ht
      rcases List.mem_map.mp ht with ⟨t0, _, rfl⟩
      by_cases hc : t0.category = some cid <;> simp [hc]
    · intro t ht
      exact List.mem_map.mpr ⟨t, ht, rfl⟩
  · intro db tid r hr
    exact of_decide_eq_true (List.mem_filter.mp hr).2
  · intro db rid c hc
    exact of_decide_eq_true (List.mem_filter.mp hc).2
  · intro db uid
    constructor
    · intro r hr
      exact of_decide_eq_true (List.mem_filter.mp hr).2
    · intro c hc
      exact (of_decide_eq_true (List.mem_filter.mp hc).2).1

/-- Witness for C7: on a concrete database holding one category, one title
referencing it, one user, one review and one comment, deleting the
category leaves the (nullified) title in place, and the surviving review
of another title keeps a title reference different from the deleted one. -/
theorem c7_delete_semantics_witness :
    ((⟨1, "B", 1990, none, none, [], some 3⟩ : Title).category = some 3 →
      ({ (⟨1, "B", 1990, none, none, [], some 3⟩ : Title) with category := none })
        ∈ (deleteCategory
            ⟨[⟨3, "books", "books"⟩], [], [⟨1, "B", 1990, none, none, [], some 3⟩], [], [], []⟩
            3).titles)
    ∧ (⟨8, 2, "keep", 4, some 5, 0⟩ : Review).title ≠ 1 :=
  ⟨fun h => by
      have := (c7_delete_semantics.1
        ⟨[⟨3, "books", "books"⟩], [], [⟨1, "B", 1990, none, none, [], some 3⟩], [], [], []⟩
        3).2.2 ⟨1, "B", 1990, none, none, [], some 3⟩ (by simp)
      simpa [h] using this,
   c7_delete_semantics.2.1
      ⟨[], [], [⟨1, "A", 1980, none, none, [], none⟩], [], [⟨8, 2, "keep", 4, some 5, 0⟩], []⟩
      1 ⟨8, 2, "keep", 4, some 5, 0⟩ (by simp [deleteTitle])⟩

/-- C8: review deserialization reads only the writable fields, so two
request bodies that agree on `text` and `score` but differ in
client-supplied `author` or `title` deserialize identically, and the
stored row built at creation always carries the context-supplied author id
and the route-derived title id, whatever the body said. -/
theorem c8_author_title_read_only :
    (∀ p1 p2 : ReviewPayload, p1.text = p2.text → p1.score = p2.score →
      reviewToInternalValue p1 = reviewToInternalValue p2)
    ∧ (∀ (uid tid : Nat) (d : ReviewValidatedData) (n now : Nat),
      (reviewPerformCreate uid tid d n now).author = uid
      ∧ (reviewPerformCreate uid tid d n now).title = tid)
    ∧ (∀ (uid tid : Nat) (p : ReviewPayload) (n now : Nat)
        (a : Option String) (t : Option Nat),
      reviewPerformCreate uid tid (reviewToInternalValue p) n now
        = reviewPerformCreate uid tid
            (reviewToInternalValue { p with author := a, title := t }) n now) := by
  refine ⟨?_, ?_, ?_⟩
  · intro p1 p2 h1 h2
    simp [reviewToInternalValue, h1, h2]
  · intro uid tid d n now
    exact ⟨rfl, rfl⟩
  · intro uid tid p n now a t
    rfl

/-- Witness for C8: two concrete bodies differing only in the
client-supplied author and title fields deserialize to the same data, and
the row created from a body that claimed author 99 and title 42 stores the
context author 2 and the route title 5. -/
theorem c8_author_title_read_only_witness :
    reviewToInternalValue ⟨"good", some 8, some "mallory", some 42, none, none⟩
      = reviewToInternalValue ⟨"good", some 8, none, none, none, none⟩
    ∧ (reviewPerformCreate 2 5 ⟨"good", some 8⟩ 1 0).author = 2
    ∧ (reviewPerformCreate 2 5 ⟨"good", some 8⟩ 1 0).title = 5 :=
  ⟨c8_author_title_read_only.1 ⟨"good", some 8, some "mallory", some 42, none, none⟩
      ⟨"good", some 8, none, none, none, none⟩ rfl rfl,
   (c8_author_title_read_only.2.1 2 5 ⟨"good", some 8⟩ 1 0).1,
   (c8_author_title_read_only.2.1 2 5 ⟨"good", some 8⟩ 1 0).2⟩

end Yamdb
